import Mathlib

/-!
Verification of the factorization tool and the bearer-token authentication
middleware of the `strands_a2a` repository (`src/factor.py`, `src/server.py`).

The factorization tool `find_factors` extracts the first maximal run of
decimal digits from an input string, parses it in base 10, and on a positive
number returns a success payload listing every divisor; otherwise it returns
a structured error payload.

The authentication middleware `authenticate_requests` exempts the well-known
agent-card discovery path and otherwise requires the `Authorization` header
to equal `Bearer <API_PASSWORD>` exactly, denying with an HTTP 401 JSON body
on any mismatch.
-/

namespace StrandsA2A

/-- One element of the `content` list of a tool result: `{"text": ...}`. -/
structure ContentItem where
  text : String
deriving DecidableEq, Repr

/-- The dictionary returned by `find_factors`: a `status` string and a
`content` list of text items. -/
structure ToolResult where
  status : String
  content : List ContentItem
deriving DecidableEq, Repr

/-- `re.findall(r'\d+', input_text)`: the list of maximal runs of decimal
digits occurring in the character list, left to right.  A digit character
extends the run started by the digit immediately following it; a digit whose
successor is not a digit starts (and, scanning leftwards, closes) a run. -/
def findall_digits : List Char → List (List Char)
  | [] => []
  | c :: cs =>
    let rest := findall_digits cs
    if c.isDigit then
      match cs with
      | d :: _ =>
        if d.isDigit then
          match rest with
          | r :: rs => (c :: r) :: rs
          | [] => [[c]]
        else [c] :: rest
      | [] => [[c]]
    else rest

/-- `int(s)` on a string of decimal digits: base-10 value. -/
def digitsToNat (ds : List Char) : Nat :=
  ds.foldl (fun n c => 10 * n + (c.toNat - '0'.toNat)) 0

/-- The factor-collecting loop of `find_factors`:
`[i for i in range(1, number + 1) if number % i == 0]`. -/
def factorsOf (number : Nat) : List Nat :=
  (List.range' 1 number).filter (fun i => number % i == 0)

/-- `find_factors` from `src/factor.py` lines 13-58 (identical copy in
`src/server.py` lines 38-83).  Extracts the digit runs, takes the first,
parses it, rejects non-positive values, and otherwise formats the divisor
list into a success message. -/
def find_factors (input_text : String) : ToolResult :=
  let numbers := findall_digits input_text.data
  match numbers with
  | [] =>
    { status := "error"
      content := [{ text := "No number found in the input text." }] }
  | first :: _ =>
    let number := digitsToNat first
    if number ≤ 0 then
      { status := "error"
        content := [{ text := "Please provide a positive integer greater than 0." }] }
    else
      let factors := factorsOf number
      let factors_str := String.intercalate ", " (factors.map (fun f => toString f))
      let result_text := "The factors of " ++ toString number ++ " are: " ++ factors_str
      { status := "success"
        content := [{ text := result_text }] }

/-- State-passing form of `find_factors`: the Python function reads and
writes no state outside its own locals (its body uses only `re.findall`,
`int`, arithmetic and string formatting), so its translation threads any
ambient world through unchanged. -/
def find_factors_with_state {World : Type} (w : World) (input_text : String) :
    ToolResult × World :=
  (find_factors input_text, w)

/-- An incoming HTTP request as seen by the middleware: `request.url.path`
and `request.headers.get("Authorization")` (absent header = `none`). -/
structure Request where
  url_path : String
  authorization : Option String
deriving DecidableEq, Repr

/-- The JSON body `{"error": ..., "message": ...}` of a denial response. -/
structure JSONBody where
  error : String
  message : String
deriving DecidableEq, Repr

/-- What the middleware returns: either its own `JSONResponse` (status code
plus JSON body) or whatever `call_next` produced. -/
inductive MiddlewareResponse (Resp : Type) where
  | jsonResponse (status_code : Nat) (body : JSONBody) : MiddlewareResponse Resp
  | downstream (r : Resp) : MiddlewareResponse Resp
deriving DecidableEq, Repr

/-- The exempt discovery path compared against `request.url.path`. -/
def agentCardPath : String := "/.well-known/agent-card.json"

/-- `authenticate_requests` from `src/factor.py` lines 115-132 (same code in
`src/server.py` lines 112-124 and 158-170): skip authentication for the
agent-card path, otherwise demand `Authorization: Bearer <API_PASSWORD>`
exactly, denying with a 401 JSON response on mismatch. -/
def authenticate_requests {Resp : Type} (API_PASSWORD : String)
    (call_next : Request → Resp) (request : Request) : MiddlewareResponse Resp :=
  if request.url_path = agentCardPath then
    .downstream (call_next request)
  else
    let auth_header := request.authorization
    if auth_header ≠ some ("Bearer " ++ API_PASSWORD) then
      .jsonResponse 401 { error := "Unauthorized", message := "Invalid or missing API password" }
    else
      .downstream (call_next request)

/-- Membership in the collected factor list is exactly divisibility within
`[1, number]`. -/
theorem mem_factorsOf {N i : Nat} :
    i ∈ factorsOf N ↔ 1 ≤ i ∧ i ≤ N ∧ N % i = 0 := by
  unfold factorsOf
  rw [List.mem_filter, List.mem_range'_1]
  constructor
  · rintro ⟨⟨h1, h2⟩, h3⟩
    exact ⟨h1, by omega, by simpa using h3⟩
  · rintro ⟨h1, h2, h3⟩
    exact ⟨⟨h1, by omega⟩, by simpa using h3⟩

/-- The collected factor list is strictly ascending. -/
theorem factorsOf_sorted (N : Nat) : (factorsOf N).Pairwise (· < ·) :=
  (List.pairwise_lt_range' 1 N).filter _

/-- For a positive number the factor list starts with 1. -/
theorem factorsOf_head (N : Nat) (hN : 0 < N) : (factorsOf N).head? = some 1 := by
  obtain ⟨m, rfl⟩ : ∃ m, N = m + 1 := ⟨N - 1, by omega⟩
  unfold factorsOf
  rw [List.range'_succ, List.filter_cons]
  simp [Nat.mod_one]

/-- In a strictly ascending list, a member bounding every element from above
is the last element. -/
theorem getLast?_eq_of_sorted_max {l : List Nat} {a : Nat}
    (hs : l.Pairwise (· < ·)) (ha : a ∈ l) (hmax : ∀ x ∈ l, x ≤ a) :
    l.getLast? = some a := by
  induction l with
  | nil => cases ha
  | cons x t ih =>
    cases t with
    | nil =>
      have : a = x := by simpa using ha
      simp [this]
    | cons y t' =>
      rw [List.getLast?_cons_cons]
      have hxy : x < y := (List.pairwise_cons.mp hs).1 y (List.mem_cons_self y t')
      have hat : a ∈ y :: t' := by
        rcases List.mem_cons.mp ha with h | h
        · exact absurd (hmax y (List.mem_cons_of_mem x (List.mem_cons_self y t')))
            (by omega)
        · exact h
      exact ih (List.pairwise_cons.mp hs).2 hat
        (fun z hz => hmax z (List.mem_cons_of_mem x hz))

/-- For a positive number the factor list ends with the number itself. -/
theorem factorsOf_getLast (N : Nat) (hN : 0 < N) :
    (factorsOf N).getLast? = some N :=
  getLast?_eq_of_sorted_max (factorsOf_sorted N)
    (mem_factorsOf.mpr ⟨hN, Nat.le_refl N, Nat.mod_self N⟩)
    (fun _ hx => (mem_factorsOf.mp hx).2.1)

/-- If no character of the input is a decimal digit, no run is found. -/
theorem findall_digits_eq_nil {cs : List Char}
    (h : ∀ c ∈ cs, ¬ c.isDigit) : findall_digits cs = [] := by
  induction cs with
  | nil => rfl
  | cons c cs ih =>
    have hc : ¬ (c.isDigit = true) := h c (List.mem_cons_self c cs)
    simp only [findall_digits, if_neg hc]
    exact ih (fun x hx => h x (List.mem_cons_of_mem c hx))

/-- Evaluation of `find_factors` when no digit run is found. -/
theorem find_factors_of_runs_nil {s : String} (h : findall_digits s.data = []) :
    find_factors s =
      { status := "error"
        content := [{ text := "No number found in the input text." }] } := by
  unfold find_factors
  rw [h]

/-- Evaluation of `find_factors` when the digit runs start with `ds`. -/
theorem find_factors_of_runs_cons {s : String} {ds : List Char}
    {rest : List (List Char)} (h : findall_digits s.data = ds :: rest) :
    find_factors s =
      if digitsToNat ds ≤ 0 then
        { status := "error"
          content := [{ text := "Please provide a positive integer greater than 0." }] }
      else
        { status := "success"
          content := [{ text := ("The factors of " ++ toString (digitsToNat ds)
            ++ " are: " ++ String.intercalate ", "
              ((factorsOf (digitsToNat ds)).map (fun f => toString f))) }] } := by
  unfold find_factors
  rw [h]

/-- C1: for every input string containing at least one maximal run of decimal
digits whose first run parses (base 10) to a positive integer N, `find_factors`
returns a success result whose divisor sequence is exactly the ascending list
of every integer i in [1, N] with N mod i = 0, with no gaps, first element 1
and last element N. -/
theorem find_factors_success_divisors (input : String) (ds : List Char)
    (rest : List (List Char)) (hruns : findall_digits input.data = ds :: rest)
    (N : Nat) (hN : digitsToNat ds = N) (hpos : 0 < N) :
    find_factors input =
      { status := "success"
        content := [{ text := ("The factors of " ++ toString N ++ " are: "
          ++ String.intercalate ", " ((factorsOf N).map (fun f => toString f))) }] } ∧
    (∀ i, i ∈ factorsOf N ↔ 1 ≤ i ∧ i ≤ N ∧ N % i = 0) ∧
    (factorsOf N).Pairwise (· < ·) ∧
    (factorsOf N).head? = some 1 ∧
    (factorsOf N).getLast? = some N := by
  subst hN
  refine ⟨?_, fun i => mem_factorsOf, factorsOf_sorted _,
    factorsOf_head _ hpos, factorsOf_getLast _ hpos⟩
  rw [find_factors_of_runs_cons hruns, if_neg (by omega : ¬ digitsToNat ds ≤ 0)]

/-- Witness for C1 at the concrete input "Factorize 12 please" (N = 12). -/
theorem find_factors_success_divisors_witness :
    find_factors "Factorize 12 please" =
      { status := "success"
        content := [{ text := ("The factors of " ++ toString 12 ++ " are: "
          ++ String.intercalate ", " ((factorsOf 12).map (fun f => toString f))) }] } ∧
    (∀ i, i ∈ factorsOf 12 ↔ 1 ≤ i ∧ i ≤ 12 ∧ 12 % i = 0) ∧
    (factorsOf 12).Pairwise (· < ·) ∧
    (factorsOf 12).head? = some 1 ∧
    (factorsOf 12).getLast? = some 12 :=
  find_factors_success_divisors "Factorize 12 please" ['1', '2'] []
    (by decide) 12 (by decide) (by decide)

/-- C2: on any request to a non-exempt path whose `Authorization` header is
not exactly `Bearer <API_PASSWORD>` (absent header included), the middleware
returns HTTP 401 with the exact JSON body
`{"error": "Unauthorized", "message": "Invalid or missing API password"}`,
and the result is independent of the downstream handler (which is never
invoked). -/
theorem authenticate_requests_denies {Resp : Type} (API_PASSWORD : String)
    (call_next : Request → Resp) (request : Request)
    (hpath : request.url_path ≠ agentCardPath)
    (hauth : request.authorization ≠ some ("Bearer " ++ API_PASSWORD)) :
    authenticate_requests API_PASSWORD call_next request =
      .jsonResponse 401
        { error := "Unauthorized", message := "Invalid or missing API password" } ∧
    ∀ call_next' : Request → Resp,
      authenticate_requests API_PASSWORD call_next' request =
        authenticate_requests API_PASSWORD call_next request := by
  have hbody : ∀ cn : Request → Resp,
      authenticate_requests API_PASSWORD cn request =
        .jsonResponse 401
          { error := "Unauthorized", message := "Invalid or missing API password" } := by
    intro cn
    unfold authenticate_requests
    rw [if_neg hpath]
    exact if_pos hauth
  exact ⟨hbody call_next, fun cn' => (hbody cn').trans (hbody call_next).symm⟩

/-- Witness for C2: wrong bearer token on a non-exempt path is denied. -/
theorem authenticate_requests_denies_witness :
    authenticate_requests "secret" (fun _ : Request => (0 : Nat))
        { url_path := "/tasks", authorization := some "Bearer wrong" } =
      .jsonResponse 401
        { error := "Unauthorized", message := "Invalid or missing API password" } ∧
    ∀ call_next' : Request → Nat,
      authenticate_requests "secret" call_next'
          { url_path := "/tasks", authorization := some "Bearer wrong" } =
        authenticate_requests "secret" (fun _ : Request => (0 : Nat))
          { url_path := "/tasks", authorization := some "Bearer wrong" } :=
  authenticate_requests_denies "secret" (fun _ => 0)
    { url_path := "/tasks", authorization := some "Bearer wrong" }
    (by decide) (by decide)

/-- C3: on the well-known discovery path the middleware forwards the request
and returns the downstream response regardless of the `Authorization` header;
two requests to that path differing only in that header receive the same
response whenever the (opaque) downstream handler answers them alike. -/
theorem authenticate_requests_exempt {Resp : Type} (API_PASSWORD : String)
    (call_next : Request → Resp) (h₁ h₂ : Option String)
    (hnext : call_next { url_path := agentCardPath, authorization := h₁ } =
             call_next { url_path := agentCardPath, authorization := h₂ }) :
    authenticate_requests API_PASSWORD call_next
        { url_path := agentCardPath, authorization := h₁ } =
      .downstream (call_next { url_path := agentCardPath, authorization := h₁ }) ∧
    authenticate_requests API_PASSWORD call_next
        { url_path := agentCardPath, authorization := h₁ } =
      authenticate_requests API_PASSWORD call_next
        { url_path := agentCardPath, authorization := h₂ } := by
  unfold authenticate_requests
  simp [hnext]

/-- Witness for C3: a header-oblivious downstream handler gives the same
response to a request with no credentials and one with wrong credentials. -/
theorem authenticate_requests_exempt_witness :
    authenticate_requests "secret" (fun _ : Request => (7 : Nat))
        { url_path := agentCardPath, authorization := none } =
      .downstream 7 ∧
    authenticate_requests "secret" (fun _ : Request => (7 : Nat))
        { url_path := agentCardPath, authorization := none } =
      authenticate_requests "secret" (fun _ : Request => (7 : Nat))
        { url_path := agentCardPath, authorization := some "Bearer wrong" } :=
  authenticate_requests_exempt "secret" (fun _ => 7) none (some "Bearer wrong") rfl

/-- C4: on a non-exempt path with `Authorization` exactly equal to
`Bearer <API_PASSWORD>`, the middleware forwards the request unchanged to the
downstream handler and returns its response unmodified. -/
theorem authenticate_requests_forwards {Resp : Type} (API_PASSWORD : String)
    (call_next : Request → Resp) (request : Request)
    (hpath : request.url_path ≠ agentCardPath)
    (hauth : request.authorization = some ("Bearer " ++ API_PASSWORD)) :
    authenticate_requests API_PASSWORD call_next request =
      .downstream (call_next request) := by
  unfold authenticate_requests
  rw [if_neg hpath, if_neg (by simp [hauth])]

/-- Witness for C4: the correct bearer token is forwarded. -/
theorem authenticate_requests_forwards_witness :
    authenticate_requests "secret" (fun r : Request => r.url_path)
        { url_path := "/tasks", authorization := some "Bearer secret" } =
      .downstream "/tasks" :=
  authenticate_requests_forwards "secret" (fun r => r.url_path)
    { url_path := "/tasks", authorization := some "Bearer secret" }
    (by decide) (by decide)

/-- C5: for an input string containing no decimal digit, `find_factors`
returns the error result with text "No number found in the input text.". -/
theorem find_factors_no_number (input : String)
    (h : ∀ c ∈ input.data, ¬ c.isDigit) :
    find_factors input =
      { status := "error"
        content := [{ text := "No number found in the input text." }] } := by
  unfold find_factors
  rw [findall_digits_eq_nil h]

/-- Witness for C5 at the concrete input "no numbers here". -/
theorem find_factors_no_number_witness :
    find_factors "no numbers here" =
      { status := "error"
        content := [{ text := "No number found in the input text." }] } :=
  find_factors_no_number "no numbers here" (by decide)

/-- C6: the input "0" takes the non-positive branch, while for "-5" the
extraction strips the sign, the run "5" is taken, and 5 is factorized
successfully. -/
theorem find_factors_zero_and_minus_five :
    find_factors "0" =
      { status := "error"
        content := [{ text := "Please provide a positive integer greater than 0." }] } ∧
    findall_digits "-5".data = [['5']] ∧
    find_factors "-5" =
      { status := "success"
        content := [{ text := "The factors of 5 are: 1, 5" }] } := by
  decide

/-- C7: the input "Factorize 12 please" succeeds with factor list
[1, 2, 3, 4, 6, 12] and the exact message
"The factors of 12 are: 1, 2, 3, 4, 6, 12". -/
theorem find_factors_example_twelve :
    find_factors "Factorize 12 please" =
      { status := "success"
        content := [{ text := "The factors of 12 are: 1, 2, 3, 4, 6, 12" }] } ∧
    factorsOf 12 = [1, 2, 3, 4, 6, 12] ∧
    "The factors of 12 are: 1, 2, 3, 4, 6, 12" =
      "The factors of " ++ toString 12 ++ " are: "
        ++ String.intercalate ", " ([1, 2, 3, 4, 6, 12].map (fun f => toString f)) := by
  decide

/-- C8: `find_factors` is deterministic and stateless: in state-passing form
it leaves any ambient world untouched, and a second invocation on the same
input (in the state the first one produced) returns the same result. -/
theorem find_factors_stateless (World : Type) (w : World) (s : String) :
    (find_factors_with_state w s).2 = w ∧
    (find_factors_with_state w s).1 =
      (find_factors_with_state ((find_factors_with_state w s).2) s).1 ∧
    (find_factors_with_state w s).1 = find_factors s :=
  ⟨rfl, rfl, rfl⟩

/-- C9: every result of `find_factors` is well formed: its status is
"success" or "error" and its content is a one-element list whose element has
a non-empty text. -/
theorem find_factors_wellformed (s : String) :
    ((find_factors s).status = "success" ∨ (find_factors s).status = "error") ∧
    (find_factors s).content.length = 1 ∧
    ∀ item ∈ (find_factors s).content, item.text ≠ "" := by
  rcases hruns : findall_digits s.data with _ | ⟨first, rest⟩
  · rw [find_factors_of_runs_nil hruns]
    refine ⟨Or.inr rfl, rfl, ?_⟩
    intro item hitem
    have hit : item = { text := "No number found in the input text." } := by
      simpa using hitem
    subst hit
    decide
  · rw [find_factors_of_runs_cons hruns]
    by_cases hn : digitsToNat first ≤ 0
    · rw [if_pos hn]
      refine ⟨Or.inr rfl, rfl, ?_⟩
      intro item hitem
      have hit : item = { text := "Please provide a positive integer greater than 0." } := by
        simpa using hitem
      subst hit
      decide
    · rw [if_neg hn]
      refine ⟨Or.inl rfl, rfl, ?_⟩
      intro item hitem
      have hit : item = { text := ("The factors of " ++ toString (digitsToNat first)
          ++ " are: " ++ String.intercalate ", "
            ((factorsOf (digitsToNat first)).map (fun f => toString f))) } := by
        simpa using hitem
      subst hit
      intro hcontra
      have hlen := congrArg String.length hcontra
      rw [String.length_append, String.length_append, String.length_append] at hlen
      have hfixed : ("The factors of " : String).length = 15 := rfl
      have hempty : ("" : String).length = 0 := rfl
      omega

/-- C10: the exemption applies only to the exact path
"/.well-known/agent-card.json": for any request to any other path the bearer
check decides the outcome before the downstream handler is reached. -/
theorem authenticate_requests_exact_path {Resp : Type} (API_PASSWORD : String)
    (call_next : Request → Resp) (request : Request)
    (hpath : request.url_path ≠ agentCardPath) :
    authenticate_requests API_PASSWORD call_next request =
      if request.authorization = some ("Bearer " ++ API_PASSWORD) then
        .downstream (call_next request)
      else
        .jsonResponse 401
          { error := "Unauthorized", message := "Invalid or missing API password" } := by
  unfold authenticate_requests
  rw [if_neg hpath]
  by_cases h : request.authorization = some ("Bearer " ++ API_PASSWORD) <;> simp [h]

/-- Witness for C10: the trailing-slash variant of the discovery path is not
exempt: without credentials it is denied. -/
theorem authenticate_requests_exact_path_witness :
    authenticate_requests "secret" (fun _ : Request => (0 : Nat))
        { url_path := "/.well-known/agent-card.json/", authorization := none } =
      .jsonResponse 401
        { error := "Unauthorized", message := "Invalid or missing API password" } := by
  have h := authenticate_requests_exact_path "secret" (fun _ : Request => (0 : Nat))
    { url_path := "/.well-known/agent-card.json/", authorization := none } (by decide)
  simpa using h

end StrandsA2A
